import Mathlib

/-
  Verification of the Enzari repository core: the GPGPU displacement simulation
  (src/src/Util/Gpgpu.jsx) and the full-screen compositing plane that drives it
  (the Plane component, src/unnamed/part_000).  GLSL shader code and the
  JavaScript render-loop state are embedded shallowly over the real numbers:
  every GLSL built-in (mix, fract, smoothstep, distance, ...) is defined by its
  GLSL specification formula, and every shader or handler is translated
  statement by statement from the source.
-/

set_option maxHeartbeats 1000000

namespace Enzari

noncomputable section

/- ===== GLSL value types and built-ins ===== -/

structure Vec2 where
  x : ℝ
  y : ℝ

structure Vec3 where
  x : ℝ
  y : ℝ
  z : ℝ

structure Vec4 where
  r : ℝ
  g : ℝ
  b : ℝ
  a : ℝ

/-- The rg swizzle of a vec4, as used by color.rg in the simulation shader. -/
def Vec4.rg (c : Vec4) : Vec2 := ⟨c.r, c.g⟩

def Vec4.ofVec3 (v : Vec3) (w : ℝ) : Vec4 := ⟨v.x, v.y, v.z, w⟩

def Vec2.add (u v : Vec2) : Vec2 := ⟨u.x + v.x, u.y + v.y⟩

def Vec2.sub (u v : Vec2) : Vec2 := ⟨u.x - v.x, u.y - v.y⟩

/-- Scalar times vector, componentwise (GLSL vec * float). -/
def Vec2.scale (k : ℝ) (v : Vec2) : Vec2 := ⟨k * v.x, k * v.y⟩

def Vec2.dot (u v : Vec2) : ℝ := u.x * v.x + u.y * v.y

def Vec2.length (v : Vec2) : ℝ := Real.sqrt (v.x * v.x + v.y * v.y)

/-- GLSL normalize is v divided by its length.  For the zero vector GLSL leaves
    the result undefined; the Lean convention 1/0 = 0 makes it the zero vector,
    and every use below multiplies it by an influence factor that is zero in
    that situation. -/
def Vec2.normalize (v : Vec2) : Vec2 := Vec2.scale (1 / v.length) v

def Vec3.scale (k : ℝ) (v : Vec3) : Vec3 := ⟨k * v.x, k * v.y, k * v.z⟩

/-- GLSL vec3 + float adds the scalar to every component. -/
def Vec3.addScalar (v : Vec3) (s : ℝ) : Vec3 := ⟨v.x + s, v.y + s, v.z + s⟩

/-- GLSL floor as a real-valued function. -/
def glFloor (x : ℝ) : ℝ := (⌊x⌋ : ℤ)

def fract (x : ℝ) : ℝ := x - glFloor x

/-- GLSL mod(x, y) = x - y * floor(x/y). -/
def glslMod (x y : ℝ) : ℝ := x - y * glFloor (x / y)

/-- GLSL mix(x, y, t) = x * (1 - t) + y * t. -/
def glMix (x y t : ℝ) : ℝ := x * (1 - t) + y * t

def Vec3.mix (u v : Vec3) (t : ℝ) : Vec3 :=
  ⟨glMix u.x v.x t, glMix u.y v.y t, glMix u.z v.z t⟩

def glClamp (x lo hi : ℝ) : ℝ := min (max x lo) hi

def smoothstep (e0 e1 x : ℝ) : ℝ :=
  let t := glClamp ((x - e0) / (e1 - e0)) 0 1
  t * t * (3 - 2 * t)

def glDistance (u v : Vec2) : ℝ := (Vec2.sub u v).length

/- ===== Shared noise helpers =====
   Both shaders in the repository define textually identical noise and
   smoothNoise functions; fractalNoise differs only in the octave count
   (4 octaves in the Gpgpu simulation shader, 3 in the compositing shader),
   expressed here by the fuel argument of the loop. -/

def noise (p : Vec2) : ℝ :=
  fract (Real.sin (Vec2.dot p ⟨12.9898, 78.233⟩) * 43758.5453)

def smoothNoise (p : Vec2) : ℝ :=
  let i : Vec2 := ⟨glFloor p.x, glFloor p.y⟩
  let f : Vec2 := ⟨fract p.x, fract p.y⟩
  let f : Vec2 := ⟨f.x * f.x * (3 - 2 * f.x), f.y * f.y * (3 - 2 * f.y)⟩
  let a := noise i
  let b := noise (Vec2.add i ⟨1, 0⟩)
  let c := noise (Vec2.add i ⟨0, 1⟩)
  let d := noise (Vec2.add i ⟨1, 1⟩)
  glMix (glMix a b f.x) (glMix c d f.x) f.y

/-- The for-loop body of fractalNoise: value accumulates amplitude octaves,
    amplitude halves and frequency doubles each iteration. -/
def fractalNoiseGo (p : Vec2) : ℕ → ℝ → ℝ → ℝ → ℝ
  | 0, value, _, _ => value
  | n + 1, value, amplitude, frequency =>
      fractalNoiseGo p n (value + amplitude * smoothNoise (Vec2.scale frequency p))
        (amplitude * 0.5) (frequency * 2)

/- ===== The Gpgpu simulation fragment shader (src/src/Util/Gpgpu.jsx) ===== -/

namespace Gpgpu

/-- 4-octave fractal noise of the simulation shader. -/
def fractalNoise (p : Vec2) : ℝ := fractalNoiseGo p 4 0 0.5 1

/-- The uniforms of the simulation shader, as installed by useGPGPU. -/
structure Uniforms where
  uMouse : Vec2
  uDeltaMouse : Vec2
  uMouseSpeed : ℝ
  uTime : ℝ
  uGridSize : ℝ
  uRelaxation : ℝ
  uDistance : ℝ

/-- influence = 1 - smoothstep(0, uDistance/uGridSize, distance(uv, uMouse)). -/
def influence (U : Uniforms) (uv : Vec2) : ℝ :=
  1 - smoothstep 0 (U.uDistance / U.uGridSize) (glDistance uv U.uMouse)

/-- The verticalDisplacement accumulator of the simulation shader: the thin
    vertical line band, the travelling wave, the extra turbulence, and the
    wider trailing band; everything guarded by influence > 0. -/
def verticalDisplacement (U : Uniforms) (uv : Vec2) (infl : ℝ) : ℝ :=
  if infl > 0 then
    let lineWidth : ℝ := 0.008
    let lineIntensity := U.uMouseSpeed * 0.3
    let lineDistance := |uv.x - U.uMouse.x|
    let vd :=
      if lineDistance < lineWidth then
        let verticalNoise := fractalNoise ⟨uv.y * 15, U.uTime * 0.3⟩
        let base := verticalNoise * lineIntensity * infl
        let waveMovement :=
          Real.sin (uv.y * 25 + U.uTime * 1.5) * Real.cos (uv.y * 12 + U.uTime * 0.8)
        let withWave := base + waveMovement * lineIntensity * infl * 0.5
        let turbulence := fractalNoise ⟨uv.y * 8 + U.uTime * 0.2, U.uTime * 0.1⟩
        withWave + turbulence * lineIntensity * infl * 0.3
      else 0
    let trailingWidth := lineWidth * 3
    let trailingDistance := |uv.x - U.uMouse.x|
    if trailingDistance < trailingWidth ∧ trailingDistance > lineWidth then
      let trailingIntensity :=
        (1 - (trailingDistance - lineWidth) / (trailingWidth - lineWidth)) * lineIntensity * 0.3
      let trailingNoise := fractalNoise ⟨uv.y * 10, U.uTime * 0.4⟩
      vd + trailingNoise * trailingIntensity * infl
    else vd
  else 0

/-- totalDisplacement: the full per-step contribution vector of the simulation
    shader (vertical band + fluid motion + turbulence + velocity offset). -/
def totalDisplacement (U : Uniforms) (uv : Vec2) : Vec2 :=
  let infl := influence U uv
  let fluidDirection := Vec2.scale 1 U.uDeltaMouse
  let fluidStrength := fluidDirection.length * infl
  let td : Vec2 := ⟨0, verticalDisplacement U uv infl⟩
  let td := Vec2.add td (Vec2.scale fluidStrength fluidDirection)
  let turbulence := U.uMouseSpeed * 0.08
  let turbulenceOffset :=
    Vec2.scale infl (Vec2.scale turbulence
      ⟨fractalNoise ⟨uv.x * 8 + U.uTime * 0.2, uv.y * 8⟩,
       fractalNoise ⟨uv.x * 8, uv.y * 8 + U.uTime * 0.2⟩⟩)
  let td := Vec2.add td turbulenceOffset
  let velocityDisplacement := U.uDeltaMouse.length * 0.2
  let velocityOffset :=
    Vec2.scale infl (Vec2.scale velocityDisplacement U.uDeltaMouse.normalize)
  Vec2.add td velocityOffset

/-- One per-cell step of the simulation shader main():
    color.rg += totalDisplacement; color.b = length(totalDisplacement) * 2.0;
    color.rg *= uRelaxation; color.b *= uRelaxation;
    color.a = mix(color.a, influence, 0.1). -/
def gpgpuMain (U : Uniforms) (uv : Vec2) (prev : Vec4) : Vec4 :=
  let td := totalDisplacement U uv
  let rg := Vec2.add prev.rg td
  let bNew := td.length * 2
  let rg := Vec2.scale U.uRelaxation rg
  let bNew := bNew * U.uRelaxation
  let aNew := glMix prev.a (influence U uv) 0.1
  ⟨rg.x, rg.y, bNew, aNew⟩

end Gpgpu

/- ===== Concrete inputs used to evaluate the simulation shader =====
   The repository configures the hook with gpgpuParams = { relaxation: 2.0,
   size: 4096, distance: 1.0 } (part_000), so uRelaxation = 2.0,
   uGridSize = ceil(sqrt(4096)) = 64 and uDistance = distance * 10 = 10. -/

/-- The relaxation constant the repository actually passes to the shader. -/
def gpgpuParamsRelaxation : ℝ := 2.0

/-- Simulation-shader uniforms with the repository configuration, the pointer
    at rest at (0,0) with zero delta and zero speed. -/
def gU1 : Gpgpu.Uniforms :=
  { uMouse := ⟨0, 0⟩, uDeltaMouse := ⟨0, 0⟩, uMouseSpeed := 0, uTime := 0,
    uGridSize := 64, uRelaxation := gpgpuParamsRelaxation, uDistance := 10 }

/-- A cell well outside the influence radius of the pointer. -/
def gUv1 : Vec2 := ⟨1, 0⟩

/-- A previous field value with nonzero displacement (0.1, 0). -/
def gPrev1 : Vec4 := ⟨0.1, 0, 0, 0⟩

lemma length_zero_vec : Vec2.length ⟨0, 0⟩ = 0 := by
  simp [Vec2.length]

lemma scale_zero_vec (k : ℝ) : Vec2.scale k ⟨0, 0⟩ = (⟨0, 0⟩ : Vec2) := by
  simp [Vec2.scale]

lemma influence_gU1 : Gpgpu.influence gU1 gUv1 = 0 := by
  have hdist : glDistance gUv1 (⟨0, 0⟩ : Vec2) = 1 := by
    simp [glDistance, Vec2.sub, Vec2.length, gUv1]
  simp only [Gpgpu.influence, gU1, hdist]
  rw [smoothstep]
  rw [show ((1 : ℝ) - 0) / ((10 : ℝ) / 64 - 0) = 6.4 by norm_num]
  rw [glClamp, max_eq_left (by norm_num), min_eq_right (by norm_num)]
  norm_num

lemma td_gU1 : Gpgpu.totalDisplacement gU1 gUv1 = (⟨0, 0⟩ : Vec2) := by
  simp only [Gpgpu.totalDisplacement, influence_gU1]
  have hvd : Gpgpu.verticalDisplacement gU1 gUv1 0 = 0 := by
    simp [Gpgpu.verticalDisplacement]
  rw [hvd]
  simp only [gU1]
  simp [Vec2.scale, Vec2.add, Vec2.length, Vec2.normalize]

lemma gpgpuMain_gU1 :
    Gpgpu.gpgpuMain gU1 gUv1 gPrev1 = ⟨0.2, 0, 0, 0⟩ := by
  simp only [Gpgpu.gpgpuMain, td_gU1, influence_gU1, length_zero_vec]
  simp only [gPrev1, gU1, gpgpuParamsRelaxation, Vec4.rg, Vec2.add, Vec2.scale,
    glMix, Vec4.mk.injEq]
  norm_num

/-- C1: the spec claims that with no new pointer input every step multiplies the
    displacement magnitude by a relaxation factor that is a constant below one,
    so magnitudes are non-increasing.  The shader does end with a multiplication
    by uRelaxation, but the repository configures uRelaxation = 2.0, so at a cell
    outside the influence radius (where this step contributes nothing) the
    displacement magnitude doubles from 0.1 to 0.2 instead of decaying; this
    contradicts the shader comment that relaxation gradually returns the field to
    rest. -/
theorem c1_relaxation_growth :
    gU1.uRelaxation = gpgpuParamsRelaxation ∧
    Vec2.length gPrev1.rg = 0.1 ∧
    Vec2.length ((Gpgpu.gpgpuMain gU1 gUv1 gPrev1).rg) = 0.2 := by
  refine ⟨rfl, ?_, ?_⟩
  · simp only [gPrev1, Vec4.rg, Vec2.length]
    rw [show (0.1 : ℝ) * 0.1 + 0 * 0 = 0.1 ^ 2 by norm_num]
    exact Real.sqrt_sq (by norm_num)
  · rw [gpgpuMain_gU1]
    simp only [Vec4.rg, Vec2.length]
    rw [show (0.2 : ℝ) * 0.2 + 0 * 0 = 0.2 ^ 2 by norm_num]
    exact Real.sqrt_sq (by norm_num)

/-- C3 counterexample: at a cell outside the influence radius with previous
    displacement (0.1, 0) and no contributions this step, the blue channel the
    shader writes is 0, while the claimed value, twice the magnitude of the
    accumulated displacement oldDisplacement + allContributions, is 0.2. -/
theorem c3_blue_counter :
    (Gpgpu.gpgpuMain gU1 gUv1 gPrev1).b ≠
      Vec2.length (Vec2.add gPrev1.rg (Gpgpu.totalDisplacement gU1 gUv1)) * 2 := by
  rw [gpgpuMain_gU1, td_gU1]
  simp only [gPrev1, Vec4.rg, Vec2.add, Vec2.length]
  intro h
  rw [show (0.1 : ℝ) + 0 = 0.1 by norm_num, show (0 : ℝ) + 0 = 0 by norm_num] at h
  rw [show (0.1 : ℝ) * 0.1 + 0 * 0 = 0.1 ^ 2 by norm_num, Real.sqrt_sq (by norm_num)] at h
  norm_num at h

/-- C3 amended: the blue channel written by a simulation step equals twice the
    length of this step's contribution vector totalDisplacement alone (not of the
    accumulated displacement), further scaled by the relaxation factor. -/
theorem c3_blue_channel (U : Gpgpu.Uniforms) (uv : Vec2) (prev : Vec4) :
    (Gpgpu.gpgpuMain U uv prev).b =
      Vec2.length (Gpgpu.totalDisplacement U uv) * 2 * U.uRelaxation := rfl

/- ===== The Plane pointer-state tracker (src/unnamed/part_000) =====
   handlePointerMove and the useFrame callback mutate a family of refs
   (lastMouseX/Y, target/current mouse position, direction, oil spill offset,
   effect visibility, movement timer, velocity).  They are gathered into one
   state record; handlePointerMove with a defined uv is the sample step and the
   useFrame callback is the frame step.  The lerp constants are the values the
   component installs in shaderArgs.uniforms.  The call from handlePointerMove
   into the hook updateMouse mutates the hook state modelled separately below. -/

namespace Tracker

def uMouseLerpSpeedV : ℝ := 0.09

def uOilSpillSpeedV : ℝ := 0.5

def uVisibilityLerpSpeedV : ℝ := 0.01

def uMouseInertiaV : ℝ := 1.0

/-- The fixed per-frame time increment of mouseMovementTimer (~60fps). -/
def frameDelta : ℝ := 0.016

def mouseIdleThreshold : ℝ := 0.5

/-- THREE.MathUtils.lerp(x, y, t) = x + (y - x) * t; Vector2.lerp is the same
    componentwise. -/
def lerpR (x y t : ℝ) : ℝ := x + (y - x) * t

/-- Math.sign over the reals. -/
def mathSign (x : ℝ) : ℝ := if 0 < x then 1 else if x < 0 then -1 else 0

structure PlaneState where
  lastX : ℝ
  lastY : ℝ
  targetPosX : ℝ
  targetPosY : ℝ
  currentPosX : ℝ
  currentPosY : ℝ
  velX : ℝ
  velY : ℝ
  targetDir : ℝ
  currentDir : ℝ
  targetOff : ℝ
  currentOff : ℝ
  targetVis : ℝ
  currentVis : ℝ
  timer : ℝ

/-- The initial ref values of the Plane component: last mouse (0.5, 0.5),
    positions (0.5, 0.5), velocity zero, direction 0, offsets 0, visibility 0,
    timer 0. -/
def initialPlaneState : PlaneState :=
  ⟨0.5, 0.5, 0.5, 0.5, 0.5, 0.5, 0, 0, 0, 0, 0, 0, 0, 0, 0⟩

/-- handlePointerMove with a defined uv: compute the deltas against
    lastMouseX/Y, lerp the velocity with inertia, take the target position,
    set the direction target to Math.sign of the x delta, advance the oil
    spill offset target by Math.sqrt(dx*dx + dy*dy) * 0.1, set the visibility
    target to 1 and reset the movement timer. -/
def sample (uv : Vec2) (s : PlaneState) : PlaneState :=
  let dx := uv.x - s.lastX
  let dy := uv.y - s.lastY
  let speed := Real.sqrt (dx * dx + dy * dy)
  { s with
    velX := lerpR s.velX (dx * 10) (1 - uMouseInertiaV),
    velY := lerpR s.velY (dy * 10) (1 - uMouseInertiaV),
    targetPosX := uv.x, targetPosY := uv.y,
    targetDir := mathSign dx,
    lastX := uv.x, lastY := uv.y,
    targetOff := s.targetOff + speed * 0.1,
    targetVis := 1,
    timer := 0 }

/-- The useFrame callback: lerp current position, direction and oil spill
    offset toward their targets, advance the movement timer by 0.016, drive the
    visibility target to 0 once the timer exceeds the 0.5 idle threshold, and
    lerp the current visibility toward the (possibly updated) target with the
    slow visibility lerp constant. -/
def frame (s : PlaneState) : PlaneState :=
  let timerNew := s.timer + frameDelta
  let targetVisNew := if timerNew > mouseIdleThreshold then 0 else s.targetVis
  { s with
    currentPosX := lerpR s.currentPosX s.targetPosX uMouseLerpSpeedV,
    currentPosY := lerpR s.currentPosY s.targetPosY uMouseLerpSpeedV,
    currentDir := lerpR s.currentDir s.targetDir uMouseLerpSpeedV,
    currentOff := lerpR s.currentOff s.targetOff uOilSpillSpeedV,
    timer := timerNew,
    targetVis := targetVisNew,
    currentVis := lerpR s.currentVis targetVisNew uVisibilityLerpSpeedV }

def frameN : ℕ → PlaneState → PlaneState
  | 0, s => s
  | n + 1, s => frame (frameN n s)

inductive Event where
  | samp (uv : Vec2)
  | fr

def stepEvent : Event → PlaneState → PlaneState
  | Event.samp uv, s => sample uv s
  | Event.fr, s => frame s

def runEvents : List Event → PlaneState → PlaneState
  | [], s => s
  | e :: es, s => runEvents es (stepEvent e s)

/-- The current oil spill offset never exceeds its target. -/
def OffInv (s : PlaneState) : Prop := s.currentOff ≤ s.targetOff

lemma offInv_step (e : Event) (s : PlaneState) (h : OffInv s) : OffInv (stepEvent e s) := by
  cases e with
  | samp uv =>
    simp only [OffInv, stepEvent, sample] at h ⊢
    have := Real.sqrt_nonneg ((uv.x - s.lastX) * (uv.x - s.lastX) +
      (uv.y - s.lastY) * (uv.y - s.lastY))
    nlinarith
  | fr =>
    simp only [OffInv, stepEvent, frame, lerpR, uOilSpillSpeedV] at h ⊢
    nlinarith

lemma offInv_run (evs : List Event) (s : PlaneState) (h : OffInv s) :
    OffInv (runEvents evs s) := by
  induction evs generalizing s with
  | nil => exact h
  | cons e es ih => exact ih _ (offInv_step e s h)

lemma offInv_reachable (evs : List Event) : OffInv (runEvents evs initialPlaneState) :=
  offInv_run evs initialPlaneState (by simp [OffInv, initialPlaneState])

end Tracker

/-- C2 counterexample: from a reachable-shaped state whose direction target is
    +1 and whose last x is 0.5, a pointer sample at the same x coordinate
    (delta.x = 0) sets the direction target to 0 rather than leaving it at its
    previous value +1. -/
theorem c2_direction_counter :
    ((⟨0.5, 0.3⟩ : Vec2).x - ({ Tracker.initialPlaneState with targetDir := 1 }).lastX = 0) ∧
    ({ Tracker.initialPlaneState with targetDir := 1 } : Tracker.PlaneState).targetDir = 1 ∧
    (Tracker.sample ⟨0.5, 0.3⟩
      { Tracker.initialPlaneState with targetDir := 1 }).targetDir = 0 := by
  refine ⟨?_, rfl, ?_⟩
  · simp [Tracker.initialPlaneState]
  · simp [Tracker.sample, Tracker.mathSign, Tracker.initialPlaneState]

/-- C2 amended: on every pointer sample the direction target becomes
    Math.sign(delta.x): +1 when delta.x > 0, -1 when delta.x < 0, and 0 (not
    the previous value) when delta.x = 0. -/
theorem c2_direction_sign (s : Tracker.PlaneState) (uv : Vec2) :
    (uv.x - s.lastX > 0 → (Tracker.sample uv s).targetDir = 1) ∧
    (uv.x - s.lastX < 0 → (Tracker.sample uv s).targetDir = -1) ∧
    (uv.x - s.lastX = 0 → (Tracker.sample uv s).targetDir = 0) := by
  refine ⟨fun h => ?_, fun h => ?_, fun h => ?_⟩ <;>
    simp only [Tracker.sample, Tracker.mathSign] <;>
    [rw [if_pos h]; rw [if_neg (by linarith), if_pos h]; rw [if_neg (by simp [h]), if_neg (by simp [h])]]

/-- C2 witness: the three sign cases evaluated at concrete samples from the
    initial state (last x = 0.5). -/
theorem c2_direction_sign_witness :
    ((⟨0.6, 0.5⟩ : Vec2).x - Tracker.initialPlaneState.lastX > 0 ∧
      (Tracker.sample ⟨0.6, 0.5⟩ Tracker.initialPlaneState).targetDir = 1) ∧
    ((⟨0.4, 0.5⟩ : Vec2).x - Tracker.initialPlaneState.lastX < 0 ∧
      (Tracker.sample ⟨0.4, 0.5⟩ Tracker.initialPlaneState).targetDir = -1) ∧
    ((⟨0.5, 0.5⟩ : Vec2).x - Tracker.initialPlaneState.lastX = 0 ∧
      (Tracker.sample ⟨0.5, 0.5⟩ Tracker.initialPlaneState).targetDir = 0) := by
  have h1 : (⟨0.6, 0.5⟩ : Vec2).x - Tracker.initialPlaneState.lastX > 0 := by
    simp [Tracker.initialPlaneState]; norm_num
  have h2 : (⟨0.4, 0.5⟩ : Vec2).x - Tracker.initialPlaneState.lastX < 0 := by
    simp [Tracker.initialPlaneState]; norm_num
  have h3 : (⟨0.5, 0.5⟩ : Vec2).x - Tracker.initialPlaneState.lastX = 0 := by
    simp [Tracker.initialPlaneState]
  exact ⟨⟨h1, (c2_direction_sign _ _).1 h1⟩, ⟨h2, (c2_direction_sign _ _).2.1 h2⟩,
    ⟨h3, (c2_direction_sign _ _).2.2 h3⟩⟩

/-- C5: idle-visibility behaviour of the tracker.  (1) After at least one frame
    with no new pointer sample, if the movement timer has passed the 0.5 idle
    threshold then the visibility target is 0.  (2) Any pointer sample sets the
    visibility target to 1 immediately, (3) without touching the current
    visibility.  (4) Each frame updates the current visibility exactly by
    lerping toward the (possibly updated) target with the slow visibility lerp
    constant 0.01, and (5) therefore never reaches the target in one step
    unless it was already there. -/
theorem c5_idle_visibility :
    (∀ (s : Tracker.PlaneState) (n : ℕ), n ≠ 0 →
      (Tracker.frameN n s).timer > Tracker.mouseIdleThreshold →
      (Tracker.frameN n s).targetVis = 0) ∧
    (∀ (uv : Vec2) (s : Tracker.PlaneState), (Tracker.sample uv s).targetVis = 1) ∧
    (∀ (uv : Vec2) (s : Tracker.PlaneState),
      (Tracker.sample uv s).currentVis = s.currentVis) ∧
    (∀ s : Tracker.PlaneState,
      (Tracker.frame s).currentVis =
        Tracker.lerpR s.currentVis ((Tracker.frame s).targetVis) Tracker.uVisibilityLerpSpeedV) ∧
    (∀ s : Tracker.PlaneState, s.currentVis ≠ (Tracker.frame s).targetVis →
      (Tracker.frame s).currentVis ≠ (Tracker.frame s).targetVis) := by
  refine ⟨?_, fun uv s => rfl, fun uv s => rfl, fun s => rfl, ?_⟩
  · intro s n hn htimer
    obtain ⟨m, rfl⟩ : ∃ m, n = m + 1 := ⟨n - 1, (Nat.succ_pred_eq_of_pos (Nat.pos_of_ne_zero hn)).symm⟩
    rw [Tracker.frameN] at htimer ⊢
    set t := Tracker.frameN m s with ht
    simp only [Tracker.frame] at htimer ⊢
    rw [if_pos htimer]
  · intro s hne heq
    apply hne
    simp only [Tracker.frame, Tracker.lerpR, Tracker.uVisibilityLerpSpeedV] at heq ⊢
    set tv := if s.timer + Tracker.frameDelta > Tracker.mouseIdleThreshold then (0 : ℝ) else s.targetVis
    linarith

/-- C5 witness: a state whose timer stands at 0.49 crosses the threshold on the
    next frame and its visibility target becomes 0; a sample from the initial
    state raises the target to 1 without moving the current visibility; and with
    current visibility 0 and target 1 a frame moves the current value to 0.01,
    not to the target. -/
theorem c5_idle_visibility_witness :
    ((Tracker.frameN 1 { Tracker.initialPlaneState with timer := 0.49 }).timer >
        Tracker.mouseIdleThreshold ∧
      (Tracker.frameN 1 { Tracker.initialPlaneState with timer := 0.49 }).targetVis = 0) ∧
    (Tracker.sample ⟨0.6, 0.5⟩ Tracker.initialPlaneState).targetVis = 1 ∧
    (Tracker.sample ⟨0.6, 0.5⟩ Tracker.initialPlaneState).currentVis =
      Tracker.initialPlaneState.currentVis ∧
    (({ Tracker.initialPlaneState with targetVis := 1 } : Tracker.PlaneState).currentVis ≠
        (Tracker.frame { Tracker.initialPlaneState with targetVis := 1 }).targetVis ∧
      (Tracker.frame { Tracker.initialPlaneState with targetVis := 1 }).currentVis ≠
        (Tracker.frame { Tracker.initialPlaneState with targetVis := 1 }).targetVis) := by
  have htv : (Tracker.frame { Tracker.initialPlaneState with targetVis := 1 }).targetVis = 1 := by
    simp only [Tracker.frame, Tracker.initialPlaneState, Tracker.frameDelta,
      Tracker.mouseIdleThreshold]
    norm_num
  have htimer : (Tracker.frameN 1 { Tracker.initialPlaneState with timer := 0.49 }).timer >
      Tracker.mouseIdleThreshold := by
    simp only [Tracker.frameN, Tracker.frame, Tracker.initialPlaneState, Tracker.frameDelta,
      Tracker.mouseIdleThreshold]
    norm_num
  have hne : ({ Tracker.initialPlaneState with targetVis := 1 } : Tracker.PlaneState).currentVis ≠
      (Tracker.frame { Tracker.initialPlaneState with targetVis := 1 }).targetVis := by
    rw [htv]; simp [Tracker.initialPlaneState]
  exact ⟨⟨htimer, c5_idle_visibility.1 _ 1 one_ne_zero htimer⟩,
    c5_idle_visibility.2.1 _ _, c5_idle_visibility.2.2.1 _ _,
    hne, c5_idle_visibility.2.2.2.2 _ hne⟩

/-- C9: across every interleaving of pointer samples and frames starting from
    the initial tracker state, one further event never decreases the oil spill
    flow offset: the target grows by a non-negative amount 0.1 × observed speed
    on a sample and is untouched by a frame, and the current (smoothed) value
    only lerps upward toward the target, so neither ever decreases or resets. -/
theorem c9_flow_offset_monotone (evs : List Tracker.Event) (e : Tracker.Event) :
    (Tracker.runEvents evs Tracker.initialPlaneState).targetOff ≤
      (Tracker.stepEvent e (Tracker.runEvents evs Tracker.initialPlaneState)).targetOff ∧
    (Tracker.runEvents evs Tracker.initialPlaneState).currentOff ≤
      (Tracker.stepEvent e (Tracker.runEvents evs Tracker.initialPlaneState)).currentOff := by
  set s := Tracker.runEvents evs Tracker.initialPlaneState with hs
  have hinv : Tracker.OffInv s := Tracker.offInv_reachable evs
  cases e with
  | samp uv =>
    constructor
    · simp only [Tracker.stepEvent, Tracker.sample]
      have := Real.sqrt_nonneg ((uv.x - s.lastX) * (uv.x - s.lastX) +
        (uv.y - s.lastY) * (uv.y - s.lastY))
      nlinarith
    · exact le_of_eq (by simp only [Tracker.stepEvent, Tracker.sample])
  | fr =>
    constructor
    · exact le_of_eq (by simp only [Tracker.stepEvent, Tracker.frame])
    · simp only [Tracker.stepEvent, Tracker.frame, Tracker.lerpR, Tracker.uOilSpillSpeedV]
      simp only [Tracker.OffInv] at hinv
      nlinarith

/- ===== The useGPGPU hook lifecycle (src/src/Util/Gpgpu.jsx) =====
   The hook keeps refs gpgpuRef, variableRef, lastMousePos and mouseSpeed; all
   start at null / (0,0) / 0.  The mount effect creates the renderer and the
   variable with its initial uniforms; the effect cleanup only calls dispose()
   on the renderer and clears none of the refs.  updateMouse returns at once
   when variableRef is still null, otherwise it writes uMouse, uDeltaMouse and
   uMouseSpeed and advances lastMousePos; getTexture returns the current render
   target texture when gpgpuRef is set and null otherwise. -/

namespace Hook

/-- The slice of the GPUComputationRenderer the hook observes: whether dispose
    was called, and an identifier of the current render target texture. -/
structure Renderer where
  disposed : Bool
  currentTexture : ℕ

structure HookState where
  gpgpuRef : Option Renderer
  variableRef : Option Gpgpu.Uniforms
  lastMousePos : Vec2
  mouseSpeedRef : ℝ

/-- Ref values before the mount effect has run: both refs null. -/
def initialHookState : HookState := ⟨none, none, ⟨0, 0⟩, 0⟩

/-- The uniforms the mount effect installs on the variable: uTime 0, the
    params relaxation, uGridSize = ceil(sqrt(4096)) = 64, uMouse (0.5, 0.5),
    uDeltaMouse (0, 0), uMouseSpeed 0, uDistance = params.distance * 10. -/
def initUniforms (relaxation distance : ℝ) : Gpgpu.Uniforms :=
  { uMouse := ⟨0.5, 0.5⟩, uDeltaMouse := ⟨0, 0⟩, uMouseSpeed := 0, uTime := 0,
    uGridSize := 64, uRelaxation := relaxation, uDistance := distance * 10 }

/-- The mount effect: allocate the renderer and the variable. -/
def effectInit (relaxation distance : ℝ) (s : HookState) : HookState :=
  { s with gpgpuRef := some ⟨false, 0⟩,
           variableRef := some (initUniforms relaxation distance) }

/-- The effect cleanup: gpgpuRenderer.dispose() is called but gpgpuRef and
    variableRef are left pointing at the disposed objects. -/
def effectCleanup (s : HookState) : HookState :=
  { s with gpgpuRef := Option.map (fun g => { g with disposed := true }) s.gpgpuRef }

/-- updateMouse(uv): return immediately when variableRef is null; otherwise
    deltaMouse = currentMouse - lastMousePos, mouseSpeed = |deltaMouse| * 10.0,
    write the three uniforms and advance lastMousePos. -/
def updateMouse (uv : Vec2) (s : HookState) : HookState :=
  match s.variableRef with
  | none => s
  | some u =>
    let currentMouse : Vec2 := ⟨uv.x, uv.y⟩
    let deltaMouse := Vec2.sub currentMouse s.lastMousePos
    let speed := deltaMouse.length * 10.0
    { s with
      variableRef := some { u with uMouse := currentMouse, uDeltaMouse := deltaMouse,
                                   uMouseSpeed := speed },
      mouseSpeedRef := speed,
      lastMousePos := currentMouse }

/-- compute(): when the refs are set, step the renderer, advance uTime by 0.016
    and damp uMouseSpeed by 0.95. -/
def compute (s : HookState) : HookState :=
  match s.variableRef with
  | none => s
  | some u =>
    { s with variableRef := some { u with uTime := u.uTime + 0.016,
                                          uMouseSpeed := u.uMouseSpeed * 0.95 } }

/-- getTexture(): the current render target texture when gpgpuRef is set,
    null otherwise. -/
def getTexture (s : HookState) : Option ℕ :=
  match s.gpgpuRef with
  | some g => some g.currentTexture
  | none => none

end Hook

/-- The hook state right after the mount effect ran with the repository
    parameters relaxation = 2.0 and distance = 1.0. -/
def hookAfterInit : Hook.HookState :=
  Hook.effectInit 2.0 1.0 Hook.initialHookState

lemma hookAfterInit_variableRef :
    hookAfterInit.variableRef = some (Hook.initUniforms 2.0 1.0) := rfl

/-- C4 counterexample: the tracker computes the pointer speed without ever
    reading a clock, so the claimed formula |delta| / elapsed × constant cannot
    describe it: for the same delta (0.1, 0) observed once over 1 time-unit and
    once over 2 time-units the code produces the same speed, which would force
    the fixed constant to equal both 10 and 20. -/
theorem c4_speed_counter :
    ¬ ∃ c : ℝ,
      (Hook.updateMouse ⟨0.1, 0⟩ hookAfterInit).mouseSpeedRef =
        Vec2.length (Vec2.sub ⟨0.1, 0⟩ hookAfterInit.lastMousePos) / 1 * c ∧
      (Hook.updateMouse ⟨0.1, 0⟩ hookAfterInit).mouseSpeedRef =
        Vec2.length (Vec2.sub ⟨0.1, 0⟩ hookAfterInit.lastMousePos) / 2 * c := by
  have hlen : Vec2.length (Vec2.sub ⟨0.1, 0⟩ hookAfterInit.lastMousePos) = 0.1 := by
    simp only [hookAfterInit, Hook.effectInit, Hook.initialHookState, Vec2.sub, Vec2.length]
    rw [show ((0.1 : ℝ) - 0) * ((0.1 : ℝ) - 0) + ((0 : ℝ) - 0) * ((0 : ℝ) - 0) = 0.1 ^ 2 by
      norm_num]
    exact Real.sqrt_sq (by norm_num)
  have hspeed : (Hook.updateMouse ⟨0.1, 0⟩ hookAfterInit).mouseSpeedRef = 1 := by
    rw [show (Hook.updateMouse ⟨0.1, 0⟩ hookAfterInit).mouseSpeedRef =
        Vec2.length (Vec2.sub ⟨0.1, 0⟩ hookAfterInit.lastMousePos) * 10.0 from rfl, hlen]
    norm_num
  rintro ⟨c, h1, h2⟩
  rw [hspeed, hlen] at h1 h2
  have hc1 : c = 10 := by linarith
  have hc2 : c = 20 := by linarith
  linarith

/-- C4 amended: for every pointer sample processed while the variable ref is
    set, the speed the hook computes is the magnitude of the uv delta since the
    previous sample multiplied by the fixed constant 10; no elapsed time enters
    the computation. -/
theorem c4_speed (uv : Vec2) (s : Hook.HookState) (u : Gpgpu.Uniforms)
    (h : s.variableRef = some u) :
    (Hook.updateMouse uv s).mouseSpeedRef =
      Vec2.length (Vec2.sub uv s.lastMousePos) * 10.0 := by
  simp only [Hook.updateMouse, h]

/-- C4 witness: the amended speed law evaluated right after the mount effect,
    at the concrete sample (0.1, 0). -/
theorem c4_speed_witness :
    hookAfterInit.variableRef = some (Hook.initUniforms 2.0 1.0) ∧
    (Hook.updateMouse ⟨0.1, 0⟩ hookAfterInit).mouseSpeedRef =
      Vec2.length (Vec2.sub ⟨0.1, 0⟩ hookAfterInit.lastMousePos) * 10.0 :=
  ⟨rfl, c4_speed ⟨0.1, 0⟩ hookAfterInit (Hook.initUniforms 2.0 1.0) rfl⟩

/-- C10 counterexample: after teardown the cleanup only disposes the renderer
    and clears neither ref, so getTexture() still returns the disposed
    renderer's current texture rather than null. -/
theorem c10_teardown_counter :
    Hook.getTexture (Hook.effectCleanup hookAfterInit) ≠ none := by
  simp [Hook.getTexture, Hook.effectCleanup, hookAfterInit, Hook.effectInit,
    Hook.initialHookState]

/-- C10 amended: before the GPGPU resources are initialized the hook's public
    operations are total and harmless: getTexture() returns null and
    updateMouse(uv) returns without modifying any state.  (After teardown the
    refs are not cleared, so there the guards do not fire.) -/
theorem c10_before_init :
    Hook.getTexture Hook.initialHookState = none ∧
    ∀ uv : Vec2, Hook.updateMouse uv Hook.initialHookState = Hook.initialHookState := by
  exact ⟨rfl, fun uv => rfl⟩

/- ===== Ping-pong buffer management ===== -/

namespace PingPong

/-- Modelled from the spec: the repository delegates ping-pong texture
    management to the bundled GPUComputationRenderer helper of three.js, which
    is not part of src/.  Spec section 4.2: two textures, each step reads the
    current buffer, writes the next buffer, and swaps which one is current. -/
structure State (α : Type) where
  buffers : Fin 2 → α
  current : Fin 2

/-- The buffer a step reads: the current one. -/
def readIndex {α : Type} (s : State α) : Fin 2 := s.current

/-- The buffer a step writes: the other one. -/
def writeIndex {α : Type} (s : State α) : Fin 2 := 1 - s.current

/-- One simulation step: apply the per-cell pass f to the contents of the read
    buffer, store the result in the write buffer, and make the write buffer the
    new current buffer. -/
def step {α : Type} (f : α → α) (s : State α) : State α :=
  { buffers := fun i => if i = writeIndex s then f (s.buffers (readIndex s)) else s.buffers i,
    current := writeIndex s }

end PingPong

/-- C7: in every simulation step the buffer read at the start is never the
    buffer written at the end of that same step; the written buffer receives
    the pass applied to the read buffer; the buffer written this step becomes
    the single current buffer; and the roles alternate, the next step reading
    what this step wrote and writing what this step read. -/
theorem c7_pingpong {α : Type} (f : α → α) (s : PingPong.State α) :
    PingPong.readIndex s ≠ PingPong.writeIndex s ∧
    (PingPong.step f s).buffers (PingPong.writeIndex s) =
      f (s.buffers (PingPong.readIndex s)) ∧
    (PingPong.step f s).current = PingPong.writeIndex s ∧
    PingPong.readIndex (PingPong.step f s) = PingPong.writeIndex s ∧
    PingPong.writeIndex (PingPong.step f s) = PingPong.readIndex s := by
  have key : ∀ c : Fin 2, c ≠ 1 - c := by decide
  have key2 : ∀ c : Fin 2, 1 - (1 - c) = c := by decide
  have hne : PingPong.readIndex s ≠ PingPong.writeIndex s := key s.current
  refine ⟨hne, ?_, rfl, rfl, ?_⟩
  · simp [PingPong.step]
  · simp only [PingPong.readIndex, PingPong.writeIndex, PingPong.step]
    exact key2 s.current

/- ===== The compositing fragment shader of the Plane component =====
   (src/unnamed/part_000, shaderArgs.fragmentShader). -/

namespace Plane

/-- 3-octave fractal noise of the compositing shader. -/
def fractalNoise (p : Vec2) : ℝ := fractalNoiseGo p 3 0 0.5 1

/-- The uniforms of the compositing shader material (shaderArgs.uniforms). -/
structure Uniforms where
  uTime : ℝ
  uMouseSpeed : ℝ
  uIntensity : ℝ
  uRGBShift : ℝ
  uChromaticAberration : ℝ
  uStepCount : ℝ
  uStepSize : ℝ
  uPatternOpacity : ℝ
  uMousePosition : Vec2
  uStepRadius : ℝ
  uStepLerpSpeed : ℝ
  uMouseDirection : ℝ
  uOilSpillOffset : ℝ
  uOilSpillSpeed : ℝ
  uEffectVisibility : ℝ
  uVisibilityLerpSpeed : ℝ
  uMouseInertia : ℝ
  uMouseLerpSpeed : ℝ

/-- The six stops of the oil spill palette. -/
def oilColor1 : Vec3 := ⟨1, 0.1, 0.9⟩

def oilColor2 : Vec3 := ⟨0.4, 0.1, 1⟩

def oilColor3 : Vec3 := ⟨0.1, 0.8, 1⟩

def oilColor4 : Vec3 := ⟨0.8, 0.2, 1⟩

def oilColor5 : Vec3 := ⟨0.2, 0.6, 1⟩

def oilColor6 : Vec3 := ⟨1, 0.3, 0.8⟩

/-- The 6-stop ramp lookup of oilSpillColor as a function of the wrapped phase
    normalizedT = mod(t + uOilSpillOffset, 6.0): integer part selects the
    segment, fractional part interpolates between its two stops. -/
def rampOf (normalizedT : ℝ) : Vec3 :=
  let index := glFloor normalizedT
  let fr := normalizedT - index
  if index = 0 then Vec3.mix oilColor1 oilColor2 fr
  else if index = 1 then Vec3.mix oilColor2 oilColor3 fr
  else if index = 2 then Vec3.mix oilColor3 oilColor4 fr
  else if index = 3 then Vec3.mix oilColor4 oilColor5 fr
  else if index = 4 then Vec3.mix oilColor5 oilColor6 fr
  else Vec3.mix oilColor6 oilColor1 fr

/-- The ramp lookup part of oilSpillColor (everything before the shimmer). -/
def oilSpillRamp (U : Uniforms) (t : ℝ) : Vec3 :=
  rampOf (glslMod (t + U.uOilSpillOffset) 6)

/-- oilSpillColor(t): the ramp lookup scaled by the iridescent shimmer
    sin(t * 25.0 + uTime * 0.8) * 0.15 + 0.85. -/
def oilSpillColor (U : Uniforms) (t : ℝ) : Vec3 :=
  let color := oilSpillRamp U t
  let shimmer := Real.sin (t * 25 + U.uTime * 0.8) * 0.15 + 0.85
  Vec3.scale shimmer color

/-- stepPosition: position of the fragment within its vertical step. -/
def stepPosition (U : Uniforms) (uv : Vec2) : ℝ :=
  fract (uv.x * U.uStepCount * U.uStepSize)

/-- adjustedStepPosition: mirrored when the mouse direction is positive. -/
def adjustedStepPosition (U : Uniforms) (uv : Vec2) : ℝ :=
  if U.uMouseDirection > 0 then 1 - stepPosition U uv else stepPosition U uv

/-- glassBrightness = 1.0 - adjustedStepPosition (1.0 = white, 0.0 = dark). -/
def glassBrightness (U : Uniforms) (uv : Vec2) : ℝ :=
  1 - adjustedStepPosition U uv

/-- createStepPattern(uv), translated statement by statement.  The stepValue
    variable of the source (floor of the step coordinate) is computed but never
    used, and is kept here under a binder name starting with an underscore. -/
def createStepPattern (U : Uniforms) (uv : Vec2) : Vec4 :=
  let distanceToMouse := glDistance uv U.uMousePosition
  let falloff := 1 - smoothstep 0 U.uStepRadius distanceToMouse
  if falloff ≤ 0 then ⟨0, 0, 0, 0⟩
  else
    let _stepValue := glFloor (uv.x * U.uStepCount * U.uStepSize)
    let animatedNoise1 := fractalNoise (Vec2.add ⟨U.uTime * 0.5, U.uTime * 0.3⟩ (Vec2.scale 8 uv))
    let animatedNoise2 := fractalNoise (Vec2.add ⟨U.uTime * 0.7, U.uTime * 0.2⟩ (Vec2.scale 12 uv))
    let animatedNoise3 := fractalNoise (Vec2.add ⟨U.uTime * 0.3, U.uTime * 0.6⟩ (Vec2.scale 16 uv))
    let splatterNoise1 := fractalNoise (Vec2.add ⟨U.uTime * 0.9, U.uTime * 0.4⟩ (Vec2.scale 20 uv))
    let splatterNoise2 := fractalNoise (Vec2.add ⟨U.uTime * 0.2, U.uTime * 0.8⟩ (Vec2.scale 24 uv))
    let fluidFlow := animatedNoise1 * 0.35 + animatedNoise2 * 0.25 + animatedNoise3 * 0.2 +
      splatterNoise1 * 0.15 + splatterNoise2 * 0.05
    let colorTime1 := U.uTime * 0.4 + fluidFlow * 3 + U.uOilSpillOffset
    let colorTime2 := U.uTime * 0.3 + animatedNoise1 * 4 + U.uOilSpillOffset * 0.8
    let colorTime3 := U.uTime * 0.2 + splatterNoise1 * 5 + U.uOilSpillOffset * 0.6
    let oilSpillColor1 := oilSpillColor U colorTime1
    let oilSpillColor2 := oilSpillColor U colorTime2
    let oilSpillColor3 := oilSpillColor U colorTime3
    let fluidOilSpill :=
      Vec3.mix (Vec3.mix oilSpillColor1 oilSpillColor2 animatedNoise1) oilSpillColor3 splatterNoise1
    let gb := glassBrightness U uv
    let edgeThreshold : ℝ := 0.15
    let edgeFactor := smoothstep 0 edgeThreshold gb * smoothstep 1 (1 - edgeThreshold) gb
    let chromaticRed := oilSpillColor U (U.uTime * 0.3 + fluidFlow * 2)
    let chromaticGreen := oilSpillColor U (U.uTime * 0.3 + fluidFlow * 2 + 0.5)
    let chromaticBlue := oilSpillColor U (U.uTime * 0.3 + fluidFlow * 2 + 1)
    let stepColor :=
      if gb > 0.05 then
        let chromaticStrength := edgeFactor * 0.8
        let sc1 := Vec3.mix fluidOilSpill chromaticRed (chromaticStrength * 0.3)
        let sc2 := Vec3.mix sc1 chromaticGreen (chromaticStrength * 0.3)
        Vec3.mix sc2 chromaticBlue (chromaticStrength * 0.4)
      else ⟨0, 0, 0⟩
    let alpha := if gb > 0.05 then gb * U.uEffectVisibility else 0
    let stepColor := Vec3.addScalar stepColor (fluidFlow * 0.03 * U.uEffectVisibility)
    Vec4.ofVec3 (Vec3.scale falloff stepColor) (alpha * falloff)

/-- The compositing shader main(): mix the step pattern over a transparent
    black background by its alpha times the pattern opacity, scale by the
    intensity, and output that color with alpha = pattern alpha x opacity. -/
def fragMain (U : Uniforms) (uv : Vec2) : Vec4 :=
  let stepPattern := createStepPattern U uv
  let background : Vec3 := ⟨0, 0, 0⟩
  let stepRgb : Vec3 := ⟨stepPattern.r, stepPattern.g, stepPattern.b⟩
  let finalColor := Vec3.mix background stepRgb (stepPattern.a * U.uPatternOpacity)
  let finalColor := Vec3.scale U.uIntensity finalColor
  let alpha := stepPattern.a * U.uPatternOpacity
  ⟨finalColor.x, finalColor.y, finalColor.z, alpha⟩

end Plane

lemma smoothstep_eq_one {e1 x : ℝ} (h1 : 0 < e1) (h2 : e1 ≤ x) :
    smoothstep 0 e1 x = 1 := by
  have hdiv : (1 : ℝ) ≤ (x - 0) / (e1 - 0) := by
    rw [sub_zero, sub_zero]
    exact (one_le_div h1).mpr h2
  simp only [smoothstep, glClamp]
  rw [max_eq_left (by linarith), min_eq_right hdiv]
  norm_num

lemma fragMain_alpha_zero (U : Plane.Uniforms) (uv : Vec2)
    (h : (Plane.createStepPattern U uv).a = 0) :
    Plane.fragMain U uv = ⟨0, 0, 0, 0⟩ := by
  simp only [Plane.fragMain, h, Vec3.mix, glMix, Vec3.scale, Vec4.mk.injEq]
  norm_num

/-- C8: the compositing pass outputs the fully transparent color (0,0,0,0) for
    every fragment at distance at least the influence radius uStepRadius from
    the pointer, and for every fragment inside the radius whose step brightness
    is in a dark region (glass brightness at most 0.05). -/
theorem c8_transparent (U : Plane.Uniforms) (uv : Vec2) (hr : 0 < U.uStepRadius) :
    (U.uStepRadius ≤ glDistance uv U.uMousePosition →
      Plane.fragMain U uv = ⟨0, 0, 0, 0⟩) ∧
    (glDistance uv U.uMousePosition < U.uStepRadius →
      Plane.glassBrightness U uv ≤ 0.05 → Plane.fragMain U uv = ⟨0, 0, 0, 0⟩) := by
  constructor
  · intro hd
    apply fragMain_alpha_zero
    have hss : smoothstep 0 U.uStepRadius (glDistance uv U.uMousePosition) = 1 :=
      smoothstep_eq_one hr hd
    simp only [Plane.createStepPattern, hss]
    norm_num
  · intro _ hgb
    apply fragMain_alpha_zero
    have hngb : ¬ Plane.glassBrightness U uv > 0.05 := by linarith
    simp only [Plane.createStepPattern]
    by_cases hf : 1 - smoothstep 0 U.uStepRadius (glDistance uv U.uMousePosition) ≤ 0
    · rw [if_pos hf]
    · rw [if_neg hf]
      simp only [Vec4.ofVec3, if_neg hngb]
      ring

/-- The initial uniform values the Plane component installs in shaderArgs. -/
def c8U : Plane.Uniforms :=
  { uTime := 0, uMouseSpeed := 0, uIntensity := 1.2, uRGBShift := 0.93,
    uChromaticAberration := 0.95, uStepCount := 100, uStepSize := 1,
    uPatternOpacity := 0.75, uMousePosition := ⟨0.5, 0.5⟩, uStepRadius := 0.1,
    uStepLerpSpeed := 0.025, uMouseDirection := 0, uOilSpillOffset := 0,
    uOilSpillSpeed := 0.5, uEffectVisibility := 0.5, uVisibilityLerpSpeed := 0.01,
    uMouseInertia := 1, uMouseLerpSpeed := 0.09 }

/-- C8 witness: with the installed uniforms (radius 0.1, pointer at
    (0.5, 0.5)), the fragment (0.5, 0.9) lies at distance 0.4 outside the
    radius, and the fragment (0.5096, 0.5) lies inside at distance 0.0096 with
    glass brightness 0.04; the pass is fully transparent at both. -/
theorem c8_transparent_witness :
    (0 < c8U.uStepRadius ∧
      c8U.uStepRadius ≤ glDistance ⟨0.5, 0.9⟩ c8U.uMousePosition ∧
      Plane.fragMain c8U ⟨0.5, 0.9⟩ = ⟨0, 0, 0, 0⟩) ∧
    (glDistance ⟨0.5096, 0.5⟩ c8U.uMousePosition < c8U.uStepRadius ∧
      Plane.glassBrightness c8U ⟨0.5096, 0.5⟩ ≤ 0.05 ∧
      Plane.fragMain c8U ⟨0.5096, 0.5⟩ = ⟨0, 0, 0, 0⟩) := by
  have hr : (0 : ℝ) < c8U.uStepRadius := by
    simp only [c8U]; norm_num
  have hd1 : glDistance ⟨0.5, 0.9⟩ c8U.uMousePosition = 0.4 := by
    simp only [c8U, glDistance, Vec2.sub, Vec2.length]
    rw [show ((0.5 : ℝ) - 0.5) * ((0.5 : ℝ) - 0.5) + ((0.9 : ℝ) - 0.5) * ((0.9 : ℝ) - 0.5) =
      0.4 ^ 2 by norm_num]
    exact Real.sqrt_sq (by norm_num)
  have hd2 : glDistance ⟨0.5096, 0.5⟩ c8U.uMousePosition = 0.0096 := by
    simp only [c8U, glDistance, Vec2.sub, Vec2.length]
    rw [show ((0.5096 : ℝ) - 0.5) * ((0.5096 : ℝ) - 0.5) +
      ((0.5 : ℝ) - 0.5) * ((0.5 : ℝ) - 0.5) = 0.0096 ^ 2 by norm_num]
    exact Real.sqrt_sq (by norm_num)
  have hgb : Plane.glassBrightness c8U ⟨0.5096, 0.5⟩ = 0.04 := by
    have hfl : glFloor ((0.5096 : ℝ) * 100 * 1) = 50 := by
      rw [show (0.5096 : ℝ) * 100 * 1 = 50.96 by norm_num]
      simp only [glFloor]
      have hfloor : ⌊(50.96 : ℝ)⌋ = 50 := by
        rw [Int.floor_eq_iff]
        constructor <;> norm_num
      rw [hfloor]
      norm_num
    simp only [Plane.glassBrightness, Plane.adjustedStepPosition, Plane.stepPosition, c8U,
      fract, hfl]
    norm_num
  have hle1 : c8U.uStepRadius ≤ glDistance ⟨0.5, 0.9⟩ c8U.uMousePosition := by
    rw [hd1]; simp only [c8U]; norm_num
  have hlt2 : glDistance ⟨0.5096, 0.5⟩ c8U.uMousePosition < c8U.uStepRadius := by
    rw [hd2]; simp only [c8U]; norm_num
  have hgble : Plane.glassBrightness c8U ⟨0.5096, 0.5⟩ ≤ 0.05 := by rw [hgb]; norm_num
  exact ⟨⟨hr, hle1, (c8_transparent c8U ⟨0.5, 0.9⟩ hr).1 hle1⟩,
    ⟨hlt2, hgble, (c8_transparent c8U ⟨0.5096, 0.5⟩ hr).2 hlt2 hgble⟩⟩

/- ===== Evaluation lemmas for the compositing shader at the origin =====
   At uTime = 0 and uv = (0, 0) every noise argument is the zero vector, and
   noise((0,0)) = fract(sin(0) * 43758.5453) = 0, so smoothNoise and
   fractalNoise vanish there; this makes the color pipeline exactly
   computable. -/

lemma glFloor_zero : glFloor 0 = 0 := by
  simp [glFloor]

lemma fract_zero : fract 0 = 0 := by
  simp [fract, glFloor_zero]

lemma glMix_zero (x y : ℝ) : glMix x y 0 = x := by
  simp [glMix]

lemma vec3Mix_zero (u v : Vec3) : Vec3.mix u v 0 = u := by
  cases u
  simp [Vec3.mix, glMix]

lemma vec3Scale_one (v : Vec3) : Vec3.scale 1 v = v := by
  cases v
  simp [Vec3.scale]

lemma vec3AddScalar_zero (v : Vec3) : Vec3.addScalar v 0 = v := by
  cases v
  simp [Vec3.addScalar]

lemma add_scale_zero (a b k : ℝ) :
    Vec2.add ⟨a, b⟩ (Vec2.scale k ⟨0, 0⟩) = (⟨a, b⟩ : Vec2) := by
  simp [Vec2.add, Vec2.scale]

lemma noise_zero : noise ⟨0, 0⟩ = 0 := by
  simp only [noise, Vec2.dot]
  norm_num [fract, glFloor]

lemma smoothNoise_zero : smoothNoise ⟨0, 0⟩ = 0 := by
  simp only [smoothNoise]
  norm_num [fract_zero, glFloor_zero, glMix, noise_zero]

lemma fractalNoiseGo_zero (n : ℕ) :
    ∀ v a f : ℝ, fractalNoiseGo ⟨0, 0⟩ n v a f = v := by
  induction n with
  | zero => intro v a f; rfl
  | succ m ih =>
    intro v a f
    rw [fractalNoiseGo, scale_zero_vec, smoothNoise_zero, ih]
    ring

lemma planeFractalNoise_zero : Plane.fractalNoise ⟨0, 0⟩ = 0 := by
  rw [Plane.fractalNoise, fractalNoiseGo_zero]

lemma glslMod_add_six (x : ℝ) : glslMod (x + 6) 6 = glslMod x 6 := by
  simp only [glslMod, glFloor]
  rw [show (x + 6) / 6 = x / 6 + 1 by ring, Int.floor_add_one]
  push_cast
  ring

/-- C6 amended: the 6-stop ramp lookup inside oilSpillColor is periodic with
    period 6 in the flow offset (and in its phase argument): adding exactly 6.0
    to uOilSpillOffset, or to the phase t, reproduces the same ramp color.  The
    full compositing output is not invariant, because colorTime2 and colorTime3
    feed the offset scaled by 0.8 and 0.6 into the same ramp and the shimmer
    factor depends on the unwrapped phase. -/
theorem c6_ramp_periodic (U : Plane.Uniforms) (t : ℝ) :
    Plane.oilSpillRamp { U with uOilSpillOffset := U.uOilSpillOffset + 6 } t =
      Plane.oilSpillRamp U t ∧
    Plane.oilSpillRamp U (t + 6) = Plane.oilSpillRamp U t := by
  constructor
  · simp only [Plane.oilSpillRamp]
    rw [show t + (U.uOilSpillOffset + 6) = t + U.uOilSpillOffset + 6 by ring,
      glslMod_add_six]
  · simp only [Plane.oilSpillRamp]
    rw [show t + 6 + U.uOilSpillOffset = t + U.uOilSpillOffset + 6 by ring,
      glslMod_add_six]

/-- sin(150) is negative: 150 lies between 47 pi and 48 pi. -/
lemma sin_150_neg : Real.sin 150 < 0 := by
  have hl : (3.141592 : ℝ) < Real.pi := Real.pi_gt_d6
  have hu : Real.pi < 3.141593 := Real.pi_lt_d6
  have h1 : (150 : ℝ) - 48 * Real.pi < 0 := by nlinarith
  have h2 : -Real.pi < (150 : ℝ) - 48 * Real.pi := by nlinarith
  have hper : Real.sin ((150 : ℝ) - 48 * Real.pi + (24 : ℤ) * (2 * Real.pi)) =
      Real.sin ((150 : ℝ) - 48 * Real.pi) := Real.sin_add_int_mul_two_pi _ 24
  rw [show (150 : ℝ) - 48 * Real.pi + (24 : ℤ) * (2 * Real.pi) = 150 by push_cast; ring]
    at hper
  rw [hper]
  exact Real.sin_neg_of_neg_of_neg_pi_lt h1 h2

/-- Compositing-shader uniforms with time 0, the pointer at the origin, full
    visibility and flow offset off; all other values as installed by the
    component. -/
def c6U (off : ℝ) : Plane.Uniforms :=
  { uTime := 0, uMouseSpeed := 0, uIntensity := 1.2, uRGBShift := 0.93,
    uChromaticAberration := 0.95, uStepCount := 100, uStepSize := 1,
    uPatternOpacity := 0.75, uMousePosition := ⟨0, 0⟩, uStepRadius := 0.1,
    uStepLerpSpeed := 0.025, uMouseDirection := 0, uOilSpillOffset := off,
    uOilSpillSpeed := 0.5, uEffectVisibility := 1, uVisibilityLerpSpeed := 0.01,
    uMouseInertia := 1, uMouseLerpSpeed := 0.09 }

lemma c6U_uTime (off : ℝ) : (c6U off).uTime = 0 := rfl

lemma c6U_uMousePosition (off : ℝ) : (c6U off).uMousePosition = (⟨0, 0⟩ : Vec2) := rfl

lemma c6U_uStepRadius (off : ℝ) : (c6U off).uStepRadius = 0.1 := rfl

lemma c6U_uEffectVisibility (off : ℝ) : (c6U off).uEffectVisibility = 1 := rfl

lemma c6U_uOilSpillOffset (off : ℝ) : (c6U off).uOilSpillOffset = off := rfl

lemma c6_dist : glDistance ⟨0, 0⟩ (⟨0, 0⟩ : Vec2) = 0 := by
  simp only [glDistance, Vec2.sub, Vec2.length]
  norm_num

/-- At the left edge of the range, smoothstep from 0 is 0 whatever the upper
    edge is. -/
lemma smoothstep_at_zero (e1 : ℝ) : smoothstep 0 e1 0 = 0 := by
  simp only [smoothstep, glClamp, sub_zero, zero_div, zero_sub]
  norm_num

lemma c6_smoothstep_edgeA : smoothstep 0 0.15 1 = 1 :=
  smoothstep_eq_one (by norm_num) (by norm_num)

lemma c6_smoothstep_edgeB : smoothstep 1 (1 - 0.15) 1 = 0 := by
  norm_num [smoothstep, glClamp]

lemma c6_glassBrightness (off : ℝ) : Plane.glassBrightness (c6U off) ⟨0, 0⟩ = 1 := by
  simp only [Plane.glassBrightness, Plane.adjustedStepPosition, Plane.stepPosition, c6U]
  norm_num [fract, glFloor]

lemma csp_c6 (off : ℝ) :
    Plane.createStepPattern (c6U off) ⟨0, 0⟩ =
      Vec4.ofVec3 (Plane.oilSpillColor (c6U off) off) 1 := by
  simp only [Plane.createStepPattern, c6U_uTime, c6U_uMousePosition, c6U_uStepRadius,
    c6U_uEffectVisibility, c6U_uOilSpillOffset, c6_dist, smoothstep_at_zero,
    zero_mul, mul_zero, zero_add, add_zero, one_mul, mul_one, sub_zero,
    add_scale_zero, planeFractalNoise_zero, c6_glassBrightness,
    c6_smoothstep_edgeA, c6_smoothstep_edgeB, vec3Mix_zero, vec3AddScalar_zero]
  norm_num [vec3Scale_one, Vec4.ofVec3]

lemma oil_c6_0 : Plane.oilSpillColor (c6U 0) 0 = Vec3.scale 0.85 Plane.oilColor1 := by
  have hmod : glslMod ((0 : ℝ) + (c6U 0).uOilSpillOffset) 6 = 0 := by
    simp only [c6U_uOilSpillOffset, glslMod, glFloor]
    norm_num
  simp only [Plane.oilSpillColor, Plane.oilSpillRamp, hmod, Plane.rampOf, glFloor_zero,
    c6U_uTime]
  norm_num [vec3Mix_zero, Real.sin_zero]

lemma oil_c6_6 : Plane.oilSpillColor (c6U 6) 6 =
    Vec3.scale (Real.sin 150 * 0.15 + 0.85) Plane.oilColor1 := by
  have hmod : glslMod ((6 : ℝ) + (c6U 6).uOilSpillOffset) 6 = 0 := by
    simp only [c6U_uOilSpillOffset, glslMod, glFloor]
    have hfloor : ⌊((6 : ℝ) + 6) / 6⌋ = 2 := by
      rw [Int.floor_eq_iff]
      constructor <;> norm_num
    rw [hfloor]
    norm_num
  simp only [Plane.oilSpillColor, Plane.oilSpillRamp, hmod, Plane.rampOf, glFloor_zero,
    c6U_uTime]
  norm_num [vec3Mix_zero]

/-- The red output channel of the compositing main() in terms of the step
    pattern (a definitional consequence of fragMain). -/
lemma frag_red (U : Plane.Uniforms) (uv : Vec2) :
    (Plane.fragMain U uv).r =
      U.uIntensity * glMix 0 (Plane.createStepPattern U uv).r
        ((Plane.createStepPattern U uv).a * U.uPatternOpacity) := rfl

/-- C6 counterexample: at time 0 with the pointer at the origin, increasing
    uOilSpillOffset by exactly 6.0 changes the color output of the compositing
    pass at the fragment (0, 0): the wrapped ramp phase is unchanged but the
    shimmer factor sin(t * 25 + ...) observes the unwrapped phase, whose value
    moves by 150, and sin 150 is not 0. -/
theorem c6_offset_counter :
    Plane.fragMain { c6U 0 with uOilSpillOffset := (c6U 0).uOilSpillOffset + 6 } ⟨0, 0⟩ ≠
      Plane.fragMain (c6U 0) ⟨0, 0⟩ := by
  have hU : ({ c6U 0 with uOilSpillOffset := (c6U 0).uOilSpillOffset + 6 } :
      Plane.Uniforms) = c6U 6 := by
    simp only [c6U]
    norm_num
  rw [hU]
  intro h
  have hred := congrArg Vec4.r h
  rw [frag_red, frag_red, csp_c6 6, csp_c6 0, oil_c6_0, oil_c6_6] at hred
  simp only [Vec4.ofVec3, Vec3.scale, Plane.oilColor1, glMix, c6U] at hred
  have hsin := sin_150_neg
  norm_num at hred
  nlinarith

end

end Enzari
